import Mathlib

/-!
Verification of the ai_detect heuristic image-analysis pipelines.

This file gives a shallow embedding of the two heuristic scoring modules of
the repository:

* `src/backend/app/services/image_detector.py`           (version v0.5)
* `src/backend/app/services/image_detector_enhanced.py`  (version v0.6)

Modelling conventions:

* Python floats are modelled as rationals (`ℚ`); all thresholds in the source
  are short decimal literals, so the arithmetic is exact.
* A decoded PIL image is modelled by the structure `Img`, which records the
  numbers the checks actually read from the image: its size and the results
  of the statistics the source computes via PIL/numpy (mean edge intensity,
  luma variance, per-channel standard deviations, the near-white pixel ratio,
  the 10th luma percentile, statistics of the downscaled edge maps, and the
  EXIF tag list).  A library call that can raise an exception is modelled as
  an `Except String` value; `Except.error` is a raised exception, and the
  branches of the Python `try`/`except` blocks become the two `match` arms.
* An input byte buffer is modelled by `ByteData`: its length plus the result
  of decoding it (`Image.open`); decoding the same buffer is deterministic,
  so the one `decode` field stands for every `Image.open` call on the buffer.
* Python string formatting of numeric values inside flag texts is elided:
  flags keep their static text (and appended string values where the source
  interpolates a string).  The SHA-256 image hash of the v0.6 result is an
  external library call with no role in any analysed property and is omitted
  from the result record.
* `for` loops that accumulate results become structural recursion or folds;
  early `return` inside a loop becomes `List.find?`/`List.filterMap`.
-/

/-! ## Python `round` on rationals

Python's builtin `round(x, d)` rounds half to even.  We model it exactly on
rationals. -/

/-- Round a rational to an integer, halves to the even neighbour. -/
def roundHalfToEven (x : ℚ) : ℤ :=
  if x - ⌊x⌋ < 1/2 then ⌊x⌋
  else if x - ⌊x⌋ > 1/2 then ⌊x⌋ + 1
  else if ⌊x⌋ % 2 = 0 then ⌊x⌋ else ⌊x⌋ + 1

/-- Python `round(x, d)`: round to `d` decimal digits, halves to even. -/
def pyRound (x : ℚ) (d : ℕ) : ℚ :=
  (roundHalfToEven (x * 10 ^ d) : ℚ) / 10 ^ d

/-! ## Strings

`containsSub needle hay` models Python's `needle in hay` on strings. -/

/-- Whether the first character list is an initial segment of the second. -/
def charListStartsWith : List Char → List Char → Bool
  | [], _ => true
  | _ :: _, [] => false
  | n :: ns, h :: hs => n == h && charListStartsWith ns hs

/-- Whether the first character list occurs contiguously in the second. -/
def charListSub (ns : List Char) : List Char → Bool
  | [] => charListStartsWith ns []
  | h :: hs => charListStartsWith ns (h :: hs) || charListSub ns hs

/-- Python's substring test `needle in hay`. -/
def containsSub (needle hay : String) : Bool :=
  charListSub needle.data hay.data

/-- Python `str.lower()`: lower-case each character. -/
def lowerString (s : String) : String :=
  ⟨s.data.map Char.toLower⟩

/-- Decidable equality for `Except`, used to evaluate concrete instances. -/
instance instDecidableEqExcept {ε α : Type} [DecidableEq ε] [DecidableEq α] :
    DecidableEq (Except ε α)
  | Except.error a, Except.error b =>
    if h : a = b then isTrue (by rw [h])
    else isFalse (by intro he; cases he; exact h rfl)
  | Except.error _, Except.ok _ => isFalse (by intro h; cases h)
  | Except.ok _, Except.error _ => isFalse (by intro h; cases h)
  | Except.ok a, Except.ok b =>
    if h : a = b then isTrue (by rw [h])
    else isFalse (by intro he; cases he; exact h rfl)

/-! ## Decoded images and input buffers -/

/--
A decoded image together with the statistics the heuristic checks read from
it.  Fields of type `Except String _` stand for PIL/numpy computations that
may raise; the string is the exception message.
-/
structure Img where
  /-- image width in pixels (`img.size[0]`) -/
  width : ℕ
  /-- image height in pixels (`img.size[1]`) -/
  height : ℕ
  /-- fraction of grayscale pixels with value above 240 (`(pixels > 240).mean()`) -/
  whiteRatio : ℚ
  /-- tenth percentile of the grayscale pixel values (`np.percentile(gray, 10)`) -/
  lowPercentile10 : ℚ
  /-- mean of channel 0 after `FIND_EDGES` (`ImageStat.Stat(edges).mean[0]`) -/
  edgeMean : Except String ℚ
  /-- variance of the grayscale image (`ImageStat.Stat(gray).var[0]`) -/
  grayVar : Except String ℚ
  /-- per-channel standard deviations (`ImageStat.Stat(img).stddev`) -/
  stddev : Except String (ℚ × ℚ × ℚ)
  /-- mean edge intensity of the image resized to 128x128 (v0.5 artefact check) -/
  smallEdgeMean128 : Except String ℚ
  /-- Pair (std, mean) of the grayscale edge map of the image resized to 256x256
      (v0.6 grid-artifact check) -/
  smallEdgeStats256 : Except String (ℚ × ℚ)
  /-- Result of `img.getexif()`: the list of (resolved tag name, value) pairs;
      `Except.error` models unreadable EXIF -/
  exif : Except String (List (String × String))
deriving DecidableEq, Repr

/-- A raw input byte buffer: its length and the result of `Image.open` on it. -/
structure ByteData where
  length : ℕ
  decode : Except String Img
deriving DecidableEq, Repr

/-! ## v0.5 pipeline — `src/backend/app/services/image_detector.py`

Each check takes the image and returns its score contribution together with
the warnings it appends (the Python versions mutate a shared `warnings`
list; we return the appended suffix and concatenate in call order). -/

/-- Source `load_image` (v0.5, lines 48-53): re-raises any decoding failure. -/
def load_image (d : ByteData) : Except String Img :=
  d.decode

/-- Source `detect_paper_or_scan` (v0.5, lines 60-70). -/
def detect_paper_or_scan (img : Img) : ℚ × List String :=
  if img.whiteRatio > 0.65 then
    (-0.25, ["Papier/Scan erkannt – geringes KI-Risiko."])
  else
    (0.0, [])

/-- Source `base_score_from_image` (v0.5, lines 73-94): dynamic base score. -/
def base_score_from_image (img : Img) : ℚ × List String :=
  let p := detect_paper_or_scan img
  let base1 : ℚ := 0.30 + p.1
  let sq : ℚ × List String :=
    if img.width = img.height then
      (base1 + 0.20, ["Quadratisches Bildformat – KI-typisch."])
    else (base1, [])
  let cin : ℚ × List String :=
    if img.lowPercentile10 < 40 then
      (sq.1 + 0.15, ["Cinematic Lighting erkannt – KI-typischer Stil."])
    else (sq.1, [])
  (max 0.05 (min cin.1 0.70), p.2 ++ sq.2 ++ cin.2)

/-- Python `any(k in val for k in ["canon", "sony", "nikon", "fujifilm"])`
applied to the lowercased value. -/
def isRealCameraMake (value : String) : Bool :=
  ["canon", "sony", "nikon", "fujifilm"].any fun k =>
    containsSub k (lowerString value)

/-- Source `exif_score` (v0.5, lines 97-117).  The bare `except:` arm is the
`Except.error` case of `getexif`; the `for` loop with early `return`
becomes `List.find?`. -/
def exif_score (img : Img) : ℚ × List String :=
  match img.exif with
  | Except.error _ => (0.05, ["EXIF nicht lesbar – wirkt KI-typisch."])
  | Except.ok tags =>
    if tags.isEmpty then
      (0.10, ["Keine EXIF-Daten gefunden – KI typisch."])
    else
      match tags.find? (fun t => t.1 == "Make" && isRealCameraMake t.2) with
      | some t => (-0.30, ["Echte Kamera erkannt (" ++ t.2 ++ ")."])
      | none => (0.0, [])

/-- Source `oversharp_score` (v0.5, lines 120-130): no `try`, so a filter failure
propagates. -/
def oversharp_score (img : Img) : Except String (ℚ × List String) :=
  match img.edgeMean with
  | Except.error e => Except.error e
  | Except.ok edge_mean =>
    if edge_mean > 45 then
      Except.ok (0.30, ["Übermäßig scharfe Konturen – KI-Oversharpening."])
    else Except.ok (0.0, [])

/-- Source `smoothness_score` (v0.5, lines 133-148): no `try`. -/
def smoothness_score (img : Img) : Except String (ℚ × List String) :=
  match img.grayVar with
  | Except.error e => Except.error e
  | Except.ok var =>
    if var < 260 then
      Except.ok (0.25, ["Sehr glatte Haut- / Bildtexturen – KI-Glättung."])
    else if 260 ≤ var ∧ var ≤ 500 then
      Except.ok (0.15, ["Gleichmäßiges Rauschmuster – KI-Rauschsimulation möglich."])
    else Except.ok (0.0, [])

/-- Source `color_score` (v0.5, lines 151-168): no `try`. -/
def color_score (img : Img) : Except String (ℚ × List String) :=
  match img.stddev with
  | Except.error e => Except.error e
  | Except.ok s =>
    let saturation := (s.1 + s.2.1 + s.2.2) / 3
    if saturation > 55 then
      Except.ok (0.20, ["Starke Farbsättigung – KI-Farbprofil."])
    else if |s.1 - s.2.1| < 6 ∧ |s.2.1 - s.2.2| < 6 then
      Except.ok (0.15, ["Unnatürlich gleichmäßige Farbharmonie – KI-Hinweis."])
    else Except.ok (0.0, [])

/-- Source `weird_hand_score` (v0.5, lines 171-182): the whole body is inside
`try`/`except: pass`, so a failure contributes nothing. -/
def weird_hand_score (img : Img) : ℚ × List String :=
  match img.smallEdgeMean128 with
  | Except.error _ => (0.0, [])
  | Except.ok mean_edges =>
    if mean_edges > 45 then
      (0.20, ["Stark segmentierte Konturen – KI-Artefakte möglich."])
    else (0.0, [])

/-- Source `resolution_score` (v0.5, lines 185-198): the width-only membership test
and the low-pixel-count relief. -/
def resolution_score (img : Img) : ℚ × List String :=
  let r1 : ℚ × List String :=
    if img.width ∈ [512, 768, 1024, 1536, 2048] then
      (0.20, ["Typische KI-Auflösungsgröße erkannt."])
    else (0.0, [])
  let r2 : ℚ × List String :=
    if img.width * img.height < 200000 then
      (-0.15, ["Geringe Auflösung – wirkt wie Scan/Echtbild."])
    else (0.0, [])
  (r1.1 + r2.1, r1.2 ++ r2.2)

/-- The v0.5 result record (`is_ai_probability`, `warnings`, `dimensions`). -/
structure AnalyzeV05Result where
  is_ai_probability : ℚ
  warnings : List String
  width : ℕ
  height : ℕ
deriving DecidableEq, Repr

/-- Source `analyze_image` (v0.5, lines 205-230).  Unguarded library failures
propagate as `Except.error`; warnings are concatenated in call order. -/
def analyze_image_v05 (d : ByteData) : Except String AnalyzeV05Result :=
  match load_image d with
  | Except.error e => Except.error e
  | Except.ok img =>
    let b := base_score_from_image img
    let ex := exif_score img
    match smoothness_score img with
    | Except.error e => Except.error e
    | Except.ok sm =>
      match oversharp_score img with
      | Except.error e => Except.error e
      | Except.ok os =>
        match color_score img with
        | Except.error e => Except.error e
        | Except.ok co =>
          let re := resolution_score img
          let wh := weird_hand_score img
          let score := b.1 + ex.1 + sm.1 + os.1 + co.1 + re.1 + wh.1
          let clamped := max 0.0 (min score 1.0)
          Except.ok
            ⟨pyRound clamped 2,
             b.2 ++ ex.2 ++ sm.2 ++ os.2 ++ co.2 ++ re.2 ++ wh.2,
             img.width, img.height⟩

/-! ## v0.6 pipeline — `src/backend/app/services/image_detector_enhanced.py` -/

/-- Enum `DetectionLevel` (v0.6, lines 27-32). -/
inductive DetectionLevel where
  | obvious_ai
  | suspicious
  | uncertain
  | likely_real
deriving DecidableEq, Repr

/-- Dataclass `HeuristicConfig` (v0.6, lines 35-57), with the resolution list
already populated by `__post_init__`. -/
structure HeuristicConfig where
  max_file_size_mb : ℕ
  max_dimension : ℕ
  min_dimension : ℕ
  extreme_sharpness_threshold : ℚ
  extreme_smoothness_threshold : ℚ
  known_ai_resolutions : List (ℕ × ℕ)
deriving DecidableEq, Repr

/-- The module-level default `CONFIG` (v0.6, line 60). -/
def CONFIG : HeuristicConfig :=
  ⟨20, 8192, 32, 70.0, 150.0,
   [(512, 512), (768, 768), (1024, 1024),
    (512, 768), (768, 512),
    (1024, 1536), (1536, 1024)]⟩

/-- Typed counterpart of `ImageValidationError` (v0.6, lines 67-69): one
constructor per `raise` site of `validate_image_data`/`load_image`, carrying
the data interpolated into the message. -/
inductive ValidationError where
  /-- message "Empty image data" -/
  | emptyData
  /-- message "Image too large: ...MB (max: ...MB)" -/
  | tooLarge (size_mb : ℚ) (max_mb : ℕ)
  /-- message "Dimensions too large: wxh (max: ...)" -/
  | dimsTooLarge (w h : ℕ) (max_dim : ℕ)
  /-- message "Dimensions too small: wxh (min: ...)" -/
  | dimsTooSmall (w h : ℕ) (min_dim : ℕ)
  /-- message "Invalid image format: ..." or "Failed to load image: ..." -/
  | invalidFormat (msg : String)
deriving DecidableEq, Repr

/-- Source `validate_image_data` (v0.6, lines 72-102). -/
def validate_image_data (cfg : HeuristicConfig) (d : ByteData) :
    Except ValidationError Unit :=
  if d.length = 0 then Except.error ValidationError.emptyData
  else
    let size_mb : ℚ := (d.length : ℚ) / (1024 * 1024)
    if size_mb > (cfg.max_file_size_mb : ℚ) then
      Except.error (ValidationError.tooLarge size_mb cfg.max_file_size_mb)
    else
      match d.decode with
      | Except.error e => Except.error (ValidationError.invalidFormat e)
      | Except.ok img =>
        if img.width > cfg.max_dimension ∨ img.height > cfg.max_dimension then
          Except.error
            (ValidationError.dimsTooLarge img.width img.height cfg.max_dimension)
        else if img.width < cfg.min_dimension ∨ img.height < cfg.min_dimension then
          Except.error
            (ValidationError.dimsTooSmall img.width img.height cfg.min_dimension)
        else Except.ok ()

/-- Source `load_image` (v0.6, lines 105-111): wraps a decoding failure as an
`ImageValidationError`. -/
def load_image_v06 (d : ByteData) : Except ValidationError Img :=
  match d.decode with
  | Except.error e =>
    Except.error (ValidationError.invalidFormat ("Failed to load image: " ++ e))
  | Except.ok img => Except.ok img

/-- Source `check_obvious_ai_artifacts` (v0.6, lines 118-162): three guarded
sections; each `except` arm contributes no score and a failure flag. -/
def check_obvious_ai_artifacts (cfg : HeuristicConfig) (img : Img) :
    ℚ × List String :=
  let c1 : ℚ × List String :=
    match img.edgeMean with
    | Except.ok edge_mean =>
      if edge_mean > cfg.extreme_sharpness_threshold then
        (0.30, ["Extreme sharpening detected"])
      else (0.0, [])
    | Except.error e => (0.0, ["Edge detection failed: " ++ e])
  let c2 : ℚ × List String :=
    match img.grayVar with
    | Except.ok variance =>
      if variance < cfg.extreme_smoothness_threshold then
        (0.25, ["Extreme smoothness detected"])
      else (0.0, [])
    | Except.error e => (0.0, ["Smoothness check failed: " ++ e])
  let c3 : ℚ × List String :=
    match img.smallEdgeStats256 with
    | Except.ok st =>
      if st.1 < 10 ∧ st.2 > 50 then
        (0.20, ["Regular pattern detected (possible AI grid artifacts)"])
      else (0.0, [])
    | Except.error e => (0.0, ["Geometry check failed: " ++ e])
  (min (c1.1 + c2.1 + c3.1) 1.0, c1.2 ++ c2.2 ++ c3.2)

/-- The AI generator markers list of `check_metadata_red_flags` (v0.6). -/
def ai_markers : List String :=
  ["midjourney", "dalle", "stable diffusion", "stablediffusion",
   "dreamstudio", "leonardo", "firefly"]

/-- First AI marker contained in a lowercased software tag value, if any
(the inner `for marker ... break` loop of `check_metadata_red_flags`). -/
def firstAiMarker (tag_value : String) : Option String :=
  ai_markers.find? fun marker => containsSub marker tag_value

/-- Source `check_metadata_red_flags` (v0.6, lines 165-198).  The `except` arm
deliberately skips: zero score, no flag.  Each software tag value adds 0.50
and one flag for its first matching marker; the result is capped at 1. -/
def check_metadata_red_flags (img : Img) : ℚ × List String :=
  match img.exif with
  | Except.error _ => (min 0.0 1.0, [])
  | Except.ok tags =>
    if tags.isEmpty then (min 0.0 1.0, [])
    else
      let software_tags :=
        (tags.filter fun t =>
          t.1 == "Software" || t.1 == "ProcessingSoftware" || t.1 == "Model").map
          fun t => lowerString t.2
      let hits := software_tags.filterMap firstAiMarker
      (min (0.50 * hits.length) 1.0,
       hits.map fun marker => "AI software detected in metadata: " ++ marker)

/-- Source `check_format_patterns` (v0.6, lines 201-216): exact-pair match
against the configured resolutions, in either orientation. -/
def check_format_patterns (cfg : HeuristicConfig) (img : Img) :
    ℚ × List String :=
  if (img.width, img.height) ∈ cfg.known_ai_resolutions ∨
     (img.height, img.width) ∈ cfg.known_ai_resolutions then
    (0.15,
     ["Exact match to common AI resolution: " ++
      toString img.width ++ "x" ++ toString img.height])
  else (0.0, [])

/-- Source `check_color_anomalies` (v0.6, lines 219-246). -/
def check_color_anomalies (img : Img) : ℚ × List String :=
  match img.stddev with
  | Except.error e => (0.0, ["Color analysis failed: " ++ e])
  | Except.ok s =>
    let max_diff := max (|s.1 - s.2.1|) (max (|s.2.1 - s.2.2|) (|s.1 - s.2.2|))
    let u : ℚ × List String :=
      if max_diff < 3.0 then (0.15, ["Extreme color uniformity detected"])
      else (0.0, [])
    let avg_std := (s.1 + s.2.1 + s.2.2) / 3
    let sat : ℚ × List String :=
      if avg_std > 70 then (0.15, ["Extreme color saturation detected"])
      else (0.0, [])
    (u.1 + sat.1, u.2 ++ sat.2)

/-- One entry of the `scores_breakdown` mapping of `prefilter_heuristics`. -/
structure BreakdownEntry where
  name : String
  score : ℚ
  flags : List String
deriving DecidableEq, Repr

/-- One iteration of the check loop of `prefilter_heuristics` (v0.6, lines
271-285).  The `Except.error` arm is the loop's `except` handler: the
failing check contributes no score, one failure flag, and a zero breakdown
entry. -/
def processCheckOutcome (c : String × Except String (ℚ × List String)) :
    ℚ × List String × BreakdownEntry :=
  match c.2 with
  | Except.ok r => (r.1, r.2, ⟨c.1, pyRound r.1 3, r.2⟩)
  | Except.error e =>
    (0.0, [c.1 ++ " check failed: " ++ e], ⟨c.1, 0.0, ["Check failed: " ++ e]⟩)

/-- The accumulation loop of `prefilter_heuristics` over the named check
outcomes: total score, concatenated flags, breakdown entries in order. -/
def foldChecks : List (String × Except String (ℚ × List String)) →
    ℚ × List String × List BreakdownEntry
  | [] => (0.0, [], [])
  | c :: cs =>
    let p := processCheckOutcome c
    let rest := foldChecks cs
    (p.1 + rest.1, p.2.1 ++ rest.2.1, p.2.2 :: rest.2.2)

/-- The tier decision of `prefilter_heuristics` (v0.6, lines 290-302):
detection level and `needs_ml` from the clamped total score. -/
def detection_tier (total_score : ℚ) : DetectionLevel × Bool :=
  if total_score ≥ 0.70 then (DetectionLevel.obvious_ai, false)
  else if total_score ≥ 0.40 then (DetectionLevel.suspicious, true)
  else if total_score ≥ 0.20 then (DetectionLevel.uncertain, true)
  else (DetectionLevel.likely_real, false)

/-- The structured result of `prefilter_heuristics` (v0.6, lines 304-310). -/
structure PrefilterResult where
  prefilter_score : ℚ
  detection_level : DetectionLevel
  needs_ml_verification : Bool
  flags : List String
  scores_breakdown : List BreakdownEntry
deriving DecidableEq, Repr

/-- Body of `prefilter_heuristics` (v0.6, lines 253-310) applied to the
already-evaluated outcome of each named check; a call to `check_func(img)`
that raises is an `Except.error` outcome. -/
def prefilter_heuristics_outcomes
    (checks : List (String × Except String (ℚ × List String))) :
    PrefilterResult :=
  let acc := foldChecks checks
  let total_score := max 0.0 (min acc.1 1.0)
  let tier := detection_tier total_score
  ⟨pyRound total_score 3, tier.1, tier.2, acc.2.1, acc.2.2⟩

/-- The check list of `prefilter_heuristics` (v0.6, lines 262-267); the four
translated checks are total, so each outcome is `Except.ok`. -/
def prefilter_checks (cfg : HeuristicConfig) (img : Img) :
    List (String × Except String (ℚ × List String)) :=
  [("artifacts", Except.ok (check_obvious_ai_artifacts cfg img)),
   ("metadata", Except.ok (check_metadata_red_flags img)),
   ("format", Except.ok (check_format_patterns cfg img)),
   ("color", Except.ok (check_color_anomalies img))]

/-- Source `prefilter_heuristics` (v0.6, lines 253-310). -/
def prefilter_heuristics (cfg : HeuristicConfig) (img : Img) : PrefilterResult :=
  prefilter_heuristics_outcomes (prefilter_checks cfg img)

/-- Source `_get_recommendation` (v0.6, lines 361-372). -/
def get_recommendation (level : DetectionLevel) : String :=
  match level with
  | DetectionLevel.obvious_ai =>
    "High confidence AI detection - multiple obvious artifacts found"
  | DetectionLevel.suspicious =>
    "Suspicious patterns detected - ML verification recommended"
  | DetectionLevel.uncertain =>
    "Inconclusive - ML analysis required for accurate detection"
  | DetectionLevel.likely_real =>
    "No obvious AI artifacts detected - likely authentic photo"

/-- The success payload of the v0.6 `analyze_image` response (lines 333-341);
the SHA-256 `image_hash` field is omitted (external hash library call, not
read by any property). -/
structure SuccessResult where
  width : ℕ
  height : ℕ
  file_size_kb : ℚ
  pre : PrefilterResult
  ml_required : Bool
  recommendation : String
deriving DecidableEq, Repr

/-- The three response shapes of the v0.6 `analyze_image` (status success /
validation_error / processing_error). -/
inductive AnalyzeV06Result where
  | success (r : SuccessResult)
  | validation_error (e : ValidationError)
  | processing_error (msg : String)
deriving DecidableEq, Repr

/-- Source `analyze_image` (v0.6, lines 313-358).  The translated pipeline
after a successful load is total, so the `processing_error` arm is never
produced by this model (in the source it catches unexpected faults). -/
def analyze_image_v06 (cfg : HeuristicConfig) (d : ByteData) : AnalyzeV06Result :=
  match validate_image_data cfg d with
  | Except.error e => AnalyzeV06Result.validation_error e
  | Except.ok _ =>
    match load_image_v06 d with
    | Except.error e => AnalyzeV06Result.validation_error e
    | Except.ok img =>
      let pre := prefilter_heuristics cfg img
      AnalyzeV06Result.success
        ⟨img.width, img.height, pyRound ((d.length : ℚ) / 1024) 2, pre,
         pre.needs_ml_verification, get_recommendation pre.detection_level⟩

/-! ## Concrete evaluation inputs

Concrete images and buffers used to instantiate the theorems below.  The
statistics are arbitrary values on which no heuristic condition fires unless
the name says otherwise. -/

/-- A plain decoded image on which no heuristic check triggers. -/
def quietImg : Img :=
  ⟨500, 400, 0, 50, Except.ok 40, Except.ok 600, Except.ok (20, 30, 40),
   Except.ok 40, Except.ok (20, 20), Except.ok [("Make", "TestCam")]⟩

/-- A well-formed 2048-byte buffer decoding to `quietImg`. -/
def quietData : ByteData := ⟨2048, Except.ok quietImg⟩

/-- The v0.5 analysis result for `quietData`. -/
def quietV05Result : AnalyzeV05Result := ⟨0.3, [], 500, 400⟩

/-- The v0.6 success payload for `quietData`. -/
def quietV06Success : SuccessResult :=
  ⟨500, 400, 2,
   ⟨0, DetectionLevel.likely_real, false, [],
    [⟨"artifacts", 0, []⟩, ⟨"metadata", 0, []⟩,
     ⟨"format", 0, []⟩, ⟨"color", 0, []⟩]⟩,
   false, "No obvious AI artifacts detected - likely authentic photo"⟩

/-- Like `quietImg`, but `getexif` raises (unreadable EXIF). -/
def unreadableExifImg : Img :=
  ⟨500, 400, 0, 50, Except.ok 40, Except.ok 600, Except.ok (20, 30, 40),
   Except.ok 40, Except.ok (20, 20), Except.error "bad EXIF"⟩

/-- Like `quietImg`, but carrying no EXIF tags at all. -/
def noExifImg : Img :=
  ⟨500, 400, 0, 50, Except.ok 40, Except.ok 600, Except.ok (20, 30, 40),
   Except.ok 40, Except.ok (20, 20), Except.ok []⟩

/-- Like `quietImg`, but with EXIF tag Make = Canon. -/
def canonImg : Img :=
  ⟨500, 400, 0, 50, Except.ok 40, Except.ok 600, Except.ok (20, 30, 40),
   Except.ok 40, Except.ok (20, 20), Except.ok [("Make", "Canon")]⟩

/-- Like `quietImg`, but mostly near-white (paper/scan relief fires). -/
def whiteImg : Img :=
  ⟨500, 400, 0.9, 50, Except.ok 40, Except.ok 600, Except.ok (20, 30, 40),
   Except.ok 40, Except.ok (20, 20), Except.ok [("Make", "TestCam")]⟩

/-- An image whose statistic computations raise: the edge filter, the
variance, the channel standard deviations, the 128x128 resize and `getexif`
all fail. -/
def failingStatsImg : Img :=
  ⟨500, 400, 0, 50, Except.error "edge boom", Except.error "var boom",
   Except.error "std boom", Except.error "resize boom", Except.ok (20, 20),
   Except.error "bad EXIF"⟩

/-- The empty byte buffer `b""`: length 0; PIL's `Image.open` raises
`UnidentifiedImageError("cannot identify image file ...")` on it. -/
def emptyData : ByteData := ⟨0, Except.error "cannot identify image file"⟩

/-- An image with the given size and quiet statistics (the validation code
reads only the size). -/
def mkImg (w h : ℕ) : Img :=
  ⟨w, h, 0, 50, Except.ok 40, Except.ok 600, Except.ok (20, 30, 40),
   Except.ok 40, Except.ok (20, 20), Except.ok [("Make", "TestCam")]⟩

/-! ## Helper lemmas -/

/-- Rounding a nonnegative rational half-to-even stays nonnegative. -/
theorem roundHalfToEven_nonneg {x : ℚ} (hx : 0 ≤ x) : 0 ≤ roundHalfToEven x := by
  have hf : (0 : ℤ) ≤ ⌊x⌋ := Int.floor_nonneg.mpr hx
  unfold roundHalfToEven
  split_ifs <;> omega

/-- Rounding half-to-even never overshoots an integer upper bound. -/
theorem roundHalfToEven_le {x : ℚ} {n : ℤ} (h : x ≤ n) : roundHalfToEven x ≤ n := by
  have hf : ⌊x⌋ ≤ n := by
    have h1 : ⌊x⌋ ≤ ⌊(n : ℚ)⌋ := Int.floor_le_floor h
    simpa using h1
  have hfx : (⌊x⌋ : ℚ) ≤ x := Int.floor_le x
  unfold roundHalfToEven
  split_ifs with h1 h2 h3
  · exact hf
  · have hlt : ((⌊x⌋ : ℚ)) < (n : ℚ) := by linarith
    have : ⌊x⌋ < n := by exact_mod_cast hlt
    omega
  · exact hf
  · have heq : x - ⌊x⌋ = 1/2 := by linarith
    have hlt : ((⌊x⌋ : ℚ)) < (n : ℚ) := by linarith
    have : ⌊x⌋ < n := by exact_mod_cast hlt
    omega

/-- Python rounding preserves nonnegativity. -/
theorem pyRound_nonneg {x : ℚ} (d : ℕ) (hx : 0 ≤ x) : 0 ≤ pyRound x d := by
  unfold pyRound
  apply div_nonneg
  · exact_mod_cast roundHalfToEven_nonneg (by positivity)
  · positivity

/-- Python rounding preserves the upper bound 1. -/
theorem pyRound_le_one {x : ℚ} (d : ℕ) (hx : x ≤ 1) : pyRound x d ≤ 1 := by
  have hpow : (0 : ℚ) < 10 ^ d := by positivity
  have hx10 : x * 10 ^ d ≤ ((10 ^ d : ℤ) : ℚ) := by
    push_cast
    nlinarith
  have hR : roundHalfToEven (x * 10 ^ d) ≤ 10 ^ d := roundHalfToEven_le hx10
  unfold pyRound
  rw [div_le_one hpow]
  exact_mod_cast hR

/-- The clamp `max(0.0, min(s, 1.0))` is nonnegative. -/
theorem clamp01_nonneg (s : ℚ) : 0 ≤ max 0.0 (min s 1.0) :=
  le_max_of_le_left (by norm_num)

/-- The clamp `max(0.0, min(s, 1.0))` is at most 1. -/
theorem clamp01_le_one (s : ℚ) : max 0.0 (min s 1.0) ≤ 1 :=
  max_le (by norm_num) (le_trans (min_le_right _ _) (by norm_num))

/-- A clamped score rounded to any number of digits lies in the unit interval. -/
theorem pyRound_clamp01_mem (s : ℚ) (d : ℕ) :
    0 ≤ pyRound (max 0.0 (min s 1.0)) d ∧ pyRound (max 0.0 (min s 1.0)) d ≤ 1 :=
  ⟨pyRound_nonneg d (clamp01_nonneg s), pyRound_le_one d (clamp01_le_one s)⟩

/-- The aggregated pre-filter score is the rounded clamp of the raw total. -/
theorem prefilter_score_eq (cs : List (String × Except String (ℚ × List String))) :
    (prefilter_heuristics_outcomes cs).prefilter_score =
      pyRound (max 0.0 (min (foldChecks cs).1 1.0)) 3 := rfl

/-- The aggregated pre-filter score lies in the unit interval. -/
theorem prefilter_score_unit (cs : List (String × Except String (ℚ × List String))) :
    0 ≤ (prefilter_heuristics_outcomes cs).prefilter_score ∧
      (prefilter_heuristics_outcomes cs).prefilter_score ≤ 1 := by
  rw [prefilter_score_eq]
  exact pyRound_clamp01_mem _ _

/-! ## Claim theorems -/

/-- C10: in the v0.5 pipeline the dynamic base score computed by
`base_score_from_image` always lies in the closed interval [0.05, 0.70],
whatever combination of the paper/scan relief, the square-format bump and
the cinematic-lighting bump fires. -/
theorem C10_base_score_clamped_range (img : Img) :
    0.05 ≤ (base_score_from_image img).1 ∧
      (base_score_from_image img).1 ≤ 0.70 := by
  unfold base_score_from_image
  dsimp only
  constructor
  · exact le_max_left _ _
  · exact max_le (by norm_num) (le_trans (min_le_right _ _) (by norm_num))

/-- C2: for every clamped aggregate score s, the detection tier and
verification flag computed by the v0.6 aggregator (`detection_tier`, inlined
in `prefilter_heuristics`) satisfy exactly the four threshold cases of the
claim. -/
theorem C2_detection_tier_thresholds (s : ℚ) (h0 : 0 ≤ s) (h1 : s ≤ 1) :
    (detection_tier s = (DetectionLevel.obvious_ai, false) ↔ 0.70 ≤ s) ∧
    (detection_tier s = (DetectionLevel.suspicious, true) ↔ 0.40 ≤ s ∧ s < 0.70) ∧
    (detection_tier s = (DetectionLevel.uncertain, true) ↔ 0.20 ≤ s ∧ s < 0.40) ∧
    (detection_tier s = (DetectionLevel.likely_real, false) ↔ s < 0.20) := by
  unfold detection_tier
  split_ifs with hA hB hC
  · refine ⟨by simp [hA], ?_, ?_, ?_⟩
    · simp only [Prod.mk.injEq]
      constructor
      · rintro ⟨hx, -⟩; cases hx
      · rintro ⟨-, hx⟩; linarith
    · simp only [Prod.mk.injEq]
      constructor
      · rintro ⟨hx, -⟩; cases hx
      · rintro ⟨-, hx⟩; linarith
    · simp only [Prod.mk.injEq]
      constructor
      · rintro ⟨hx, -⟩; cases hx
      · intro hx; linarith
  · push_neg at hA
    refine ⟨?_, by simp [hB, hA], ?_, ?_⟩
    · simp only [Prod.mk.injEq]
      constructor
      · rintro ⟨hx, -⟩; cases hx
      · intro hx; linarith
    · simp only [Prod.mk.injEq]
      constructor
      · rintro ⟨hx, -⟩; cases hx
      · rintro ⟨-, hx⟩; linarith
    · simp only [Prod.mk.injEq]
      constructor
      · rintro ⟨hx, -⟩; cases hx
      · intro hx; linarith
  · push_neg at hA hB
    refine ⟨?_, ?_, by simp [hC, hB], ?_⟩
    · simp only [Prod.mk.injEq]
      constructor
      · rintro ⟨hx, -⟩; cases hx
      · intro hx; linarith
    · simp only [Prod.mk.injEq]
      constructor
      · rintro ⟨hx, -⟩; cases hx
      · rintro ⟨hx, -⟩; linarith
    · simp only [Prod.mk.injEq]
      constructor
      · rintro ⟨hx, -⟩; cases hx
      · intro hx; linarith
  · push_neg at hA hB hC
    refine ⟨?_, ?_, ?_, by simp; linarith⟩
    · simp only [Prod.mk.injEq]
      constructor
      · rintro ⟨hx, -⟩; cases hx
      · intro hx; linarith
    · simp only [Prod.mk.injEq]
      constructor
      · rintro ⟨hx, -⟩; cases hx
      · rintro ⟨hx, -⟩; linarith
    · simp only [Prod.mk.injEq]
      constructor
      · rintro ⟨hx, -⟩; cases hx
      · rintro ⟨hx, -⟩; linarith


/-- C1: for every input byte buffer on which analysis succeeds, the final
probability returned by the pipeline (`is_ai_probability` in v0.5,
`prefilter_score` in v0.6) lies in [0.0, 1.0], regardless of which checks
fire and what partial scores they contribute. -/
theorem C1_final_probability_in_unit_interval (cfg : HeuristicConfig) (d : ByteData) :
    (∀ r, analyze_image_v05 d = Except.ok r →
      0 ≤ r.is_ai_probability ∧ r.is_ai_probability ≤ 1) ∧
    (∀ r, analyze_image_v06 cfg d = AnalyzeV06Result.success r →
      0 ≤ r.pre.prefilter_score ∧ r.pre.prefilter_score ≤ 1) := by
  constructor
  · intro r h
    unfold analyze_image_v05 load_image at h
    cases hd : d.decode with
    | error e => simp [hd] at h
    | ok img =>
      simp only [hd] at h
      cases hs : smoothness_score img with
      | error e => simp [hs] at h
      | ok sm =>
        simp only [hs] at h
        cases ho : oversharp_score img with
        | error e => simp [ho] at h
        | ok os =>
          simp only [ho] at h
          cases hc : color_score img with
          | error e => simp [hc] at h
          | ok co =>
            simp only [hc, Except.ok.injEq] at h
            subst h
            exact pyRound_clamp01_mem _ 2
  · intro r h
    unfold analyze_image_v06 at h
    cases hv : validate_image_data cfg d with
    | error e => simp [hv] at h
    | ok u =>
      simp only [hv] at h
      cases hl : load_image_v06 d with
      | error e => simp [hl] at h
      | ok img =>
        simp only [hl, AnalyzeV06Result.success.injEq] at h
        subst h
        exact prefilter_score_unit _

/-- Witness for C1 at the concrete quiet buffer. -/
theorem C1_final_probability_in_unit_interval_witness :
    (0 ≤ quietV05Result.is_ai_probability ∧ quietV05Result.is_ai_probability ≤ 1) ∧
    (0 ≤ quietV06Success.pre.prefilter_score ∧
      quietV06Success.pre.prefilter_score ≤ 1) :=
  ⟨(C1_final_probability_in_unit_interval CONFIG quietData).1 quietV05Result
    (by
      simp +decide [analyze_image_v05, load_image, quietData, quietImg,
        base_score_from_image, detect_paper_or_scan, exif_score, smoothness_score,
        oversharp_score, color_score, resolution_score, weird_hand_score,
        quietV05Result, pyRound, roundHalfToEven, isRealCameraMake, lowerString,
        containsSub, charListSub, charListStartsWith]
      norm_num),
   (C1_final_probability_in_unit_interval CONFIG quietData).2 quietV06Success
    (by
      simp +decide [analyze_image_v06, validate_image_data, load_image_v06, quietData,
        quietImg, CONFIG, prefilter_heuristics, prefilter_checks,
        prefilter_heuristics_outcomes, foldChecks, processCheckOutcome,
        check_obvious_ai_artifacts, check_metadata_red_flags, check_format_patterns,
        check_color_anomalies, detection_tier, get_recommendation, quietV06Success,
        pyRound, roundHalfToEven, firstAiMarker, ai_markers, lowerString,
        containsSub, charListSub, charListStartsWith]
      norm_num)⟩

/-- Witness for C2 at the concrete score 0.5. -/
theorem C2_detection_tier_thresholds_witness :
    (detection_tier 0.5 = (DetectionLevel.obvious_ai, false) ↔ 0.70 ≤ (0.5 : ℚ)) ∧
    (detection_tier 0.5 = (DetectionLevel.suspicious, true) ↔
      0.40 ≤ (0.5 : ℚ) ∧ (0.5 : ℚ) < 0.70) ∧
    (detection_tier 0.5 = (DetectionLevel.uncertain, true) ↔
      0.20 ≤ (0.5 : ℚ) ∧ (0.5 : ℚ) < 0.40) ∧
    (detection_tier 0.5 = (DetectionLevel.likely_real, false) ↔ (0.5 : ℚ) < 0.20) :=
  C2_detection_tier_thresholds 0.5 (by norm_num) (by norm_num)

/-- C3 counterexample: the claim says a failing check contributes exactly
zero score, but the v0.5 EXIF check degrades an unreadable-EXIF failure to
the non-zero contribution 0.05. -/
theorem C3_failing_check_not_always_zero_cex :
    (exif_score unreadableExifImg).1 = 0.05 ∧ (exif_score unreadableExifImg).1 ≠ 0 := by
  constructor
  · rfl
  · show (0.05 : ℚ) ≠ 0
    norm_num

/-- C3 (amended): an internal check failure is contained only where the
source guards it.  In the v0.6 aggregator loop a failing check contributes
exactly zero score, a breakdown entry with score zero, and an explanatory
flag, while the remaining checks still run.  Among the guarded individual
checks the degraded contribution is not always zero-with-flag: the v0.5 EXIF
check degrades an unreadable EXIF to the non-zero score 0.05 (with a flag),
the v0.5 contour-artifact check degrades to zero with no flag, and the v0.6
metadata check degrades to zero with no flag.  The v0.5 oversharpening,
smoothness and colour checks are unguarded, so a failure there propagates
as a raised exception, and a smoothness failure propagates out of the whole
v0.5 pipeline unhandled, skipping the remaining checks. -/
theorem C3_degraded_failures_amended :
    (∀ (n e : String) (cs : List (String × Except String (ℚ × List String))),
      foldChecks ((n, Except.error e) :: cs) =
        ((foldChecks cs).1,
         (n ++ " check failed: " ++ e) :: (foldChecks cs).2.1,
         (⟨n, 0.0, ["Check failed: " ++ e]⟩ : BreakdownEntry) ::
           (foldChecks cs).2.2)) ∧
    (∀ img : Img, (∃ e, img.exif = Except.error e) →
      exif_score img = (0.05, ["EXIF nicht lesbar – wirkt KI-typisch."])) ∧
    (∀ img : Img, (∃ e, img.exif = Except.error e) →
      check_metadata_red_flags img = (0.0, [])) ∧
    (∀ (img : Img) (e : String), img.smallEdgeMean128 = Except.error e →
      weird_hand_score img = (0.0, [])) ∧
    (∀ (img : Img) (e : String), img.edgeMean = Except.error e →
      oversharp_score img = Except.error e) ∧
    (∀ (img : Img) (e : String), img.grayVar = Except.error e →
      smoothness_score img = Except.error e) ∧
    (∀ (img : Img) (e : String), img.stddev = Except.error e →
      color_score img = Except.error e) ∧
    (∀ (len : ℕ) (img : Img) (e : String), img.grayVar = Except.error e →
      analyze_image_v05 ⟨len, Except.ok img⟩ = Except.error e) := by
  refine ⟨?_, ?_, ?_, ?_, ?_, ?_, ?_, ?_⟩
  · intro n e cs
    simp [foldChecks, processCheckOutcome]
    norm_num
  · rintro img ⟨e, he⟩
    simp [exif_score, he]
  · rintro img ⟨e, he⟩
    simp [check_metadata_red_flags, he]
    norm_num
  · intro img e he
    simp [weird_hand_score, he]
  · intro img e he
    simp [oversharp_score, he]
  · intro img e he
    simp [smoothness_score, he]
  · intro img e he
    simp [color_score, he]
  · intro len img e he
    have hs : smoothness_score img = Except.error e := by
      simp [smoothness_score, he]
    unfold analyze_image_v05 load_image
    dsimp only
    rw [hs]

/-- Witness for C3 at a concrete erroring check outcome, the concrete
unreadable-EXIF image and the concrete image whose statistics fail. -/
theorem C3_degraded_failures_amended_witness :
    foldChecks
        (("artifacts", Except.error "boom") ::
          [("metadata", Except.ok ((0.0 : ℚ), ([] : List String)))]) =
      ((foldChecks [("metadata", Except.ok ((0.0 : ℚ), ([] : List String)))]).1,
       ("artifacts" ++ " check failed: " ++ "boom") ::
         (foldChecks [("metadata", Except.ok ((0.0 : ℚ), ([] : List String)))]).2.1,
       (⟨"artifacts", 0.0, ["Check failed: " ++ "boom"]⟩ : BreakdownEntry) ::
         (foldChecks [("metadata", Except.ok ((0.0 : ℚ), ([] : List String)))]).2.2) ∧
    exif_score unreadableExifImg = (0.05, ["EXIF nicht lesbar – wirkt KI-typisch."]) ∧
    check_metadata_red_flags unreadableExifImg = (0.0, []) ∧
    weird_hand_score failingStatsImg = (0.0, []) ∧
    oversharp_score failingStatsImg = Except.error "edge boom" ∧
    smoothness_score failingStatsImg = Except.error "var boom" ∧
    color_score failingStatsImg = Except.error "std boom" ∧
    analyze_image_v05 ⟨2048, Except.ok failingStatsImg⟩ = Except.error "var boom" :=
  ⟨C3_degraded_failures_amended.1 "artifacts" "boom" _,
   C3_degraded_failures_amended.2.1 unreadableExifImg ⟨"bad EXIF", rfl⟩,
   C3_degraded_failures_amended.2.2.1 unreadableExifImg ⟨"bad EXIF", rfl⟩,
   C3_degraded_failures_amended.2.2.2.1 failingStatsImg "resize boom" rfl,
   C3_degraded_failures_amended.2.2.2.2.1 failingStatsImg "edge boom" rfl,
   C3_degraded_failures_amended.2.2.2.2.2.1 failingStatsImg "var boom" rfl,
   C3_degraded_failures_amended.2.2.2.2.2.2.1 failingStatsImg "std boom" rfl,
   C3_degraded_failures_amended.2.2.2.2.2.2.2 2048 failingStatsImg "var boom" rfl⟩

/-- C4 counterexample: on the empty byte buffer the v0.5 analysis entry
point (the one the HTTP router `detect.py` calls) does not return a
validation-error value: the image loader's exception propagates out of
`analyze_image` unhandled. -/
theorem C4_empty_buffer_v05_raises_cex :
    analyze_image_v05 emptyData = Except.error "cannot identify image file" := rfl

/-- C4 (amended): for the empty byte buffer the v0.6 entry point returns a
validation error indicating empty input, and no heuristic check is executed
(the result does not depend on the image statistics or check outcomes at
all); the v0.5 entry point instead propagates the image loader's exception
for the same input. -/
theorem C4_empty_buffer_amended :
    (∀ (cfg : HeuristicConfig) (d : ByteData), d.length = 0 →
      analyze_image_v06 cfg d =
        AnalyzeV06Result.validation_error ValidationError.emptyData) ∧
    analyze_image_v05 emptyData = Except.error "cannot identify image file" := by
  constructor
  · intro cfg d h
    simp [analyze_image_v06, validate_image_data, h]
  · rfl

/-- Witness for C4 at the concrete empty buffer. -/
theorem C4_empty_buffer_amended_witness :
    analyze_image_v06 CONFIG emptyData =
      AnalyzeV06Result.validation_error ValidationError.emptyData :=
  C4_empty_buffer_amended.1 CONFIG emptyData rfl

/-- C5: input validation uses inclusive bounds with strict rejection just
outside them: a buffer of exactly `max_file_size_mb` megabytes passes the
size check while one byte more yields a validation error citing size, and an
image whose sides lie within [`min_dimension`, `max_dimension`] (including
exactly at the bounds) passes while one pixel below the minimum or above the
maximum yields a validation error citing dimensions. -/
theorem C5_validation_inclusive_bounds (cfg : HeuristicConfig) (w h len : ℕ)
    (hmb : 0 < cfg.max_file_size_mb)
    (hminpos : 0 < cfg.min_dimension)
    (hord : cfg.min_dimension ≤ cfg.max_dimension)
    (hw1 : cfg.min_dimension ≤ w) (hw2 : w ≤ cfg.max_dimension)
    (hh1 : cfg.min_dimension ≤ h) (hh2 : h ≤ cfg.max_dimension)
    (hlen0 : 0 < len) (hlen : len ≤ cfg.max_file_size_mb * 1048576) :
    validate_image_data cfg ⟨cfg.max_file_size_mb * 1048576, Except.ok (mkImg w h)⟩ =
      Except.ok () ∧
    validate_image_data cfg ⟨cfg.max_file_size_mb * 1048576 + 1, Except.ok (mkImg w h)⟩ =
      Except.error (ValidationError.tooLarge
        (((cfg.max_file_size_mb * 1048576 + 1 : ℕ) : ℚ) / (1024 * 1024))
        cfg.max_file_size_mb) ∧
    validate_image_data cfg ⟨len, Except.ok (mkImg w h)⟩ = Except.ok () ∧
    validate_image_data cfg ⟨len, Except.ok (mkImg (cfg.min_dimension - 1) h)⟩ =
      Except.error (ValidationError.dimsTooSmall (cfg.min_dimension - 1) h
        cfg.min_dimension) ∧
    validate_image_data cfg ⟨len, Except.ok (mkImg (cfg.max_dimension + 1) h)⟩ =
      Except.error (ValidationError.dimsTooLarge (cfg.max_dimension + 1) h
        cfg.max_dimension) := by
  have hszeq : ∀ m : ℕ, m ≤ cfg.max_file_size_mb * 1048576 →
      ¬ ((m : ℕ) : ℚ) / (1024 * 1024) > (cfg.max_file_size_mb : ℚ) := by
    intro m hm
    rw [gt_iff_lt, not_lt, div_le_iff₀ (by norm_num)]
    have hc : ((m : ℕ) : ℚ) ≤ ((cfg.max_file_size_mb * 1048576 : ℕ) : ℚ) := by
      exact_mod_cast hm
    push_cast at hc ⊢
    linarith
  have hd1 : ¬ (w > cfg.max_dimension ∨ h > cfg.max_dimension) := by omega
  have hd2 : ¬ (w < cfg.min_dimension ∨ h < cfg.min_dimension) := by omega
  refine ⟨?_, ?_, ?_, ?_, ?_⟩
  · dsimp only [validate_image_data, mkImg]
    rw [if_neg (by omega : ¬ cfg.max_file_size_mb * 1048576 = 0),
        if_neg (hszeq _ (le_refl _)), if_neg hd1, if_neg hd2]
  · dsimp only [validate_image_data, mkImg]
    rw [if_neg (by omega : ¬ cfg.max_file_size_mb * 1048576 + 1 = 0),
        if_pos]
    rw [gt_iff_lt, lt_div_iff₀ (by norm_num : (0:ℚ) < 1024 * 1024)]
    push_cast
    linarith
  · dsimp only [validate_image_data, mkImg]
    rw [if_neg (by omega : ¬ len = 0),
        if_neg (hszeq _ hlen), if_neg hd1, if_neg hd2]
  · have hd3 : ¬ (cfg.min_dimension - 1 > cfg.max_dimension ∨ h > cfg.max_dimension) := by
      omega
    have hd4 : cfg.min_dimension - 1 < cfg.min_dimension ∨ h < cfg.min_dimension := by
      omega
    dsimp only [validate_image_data, mkImg]
    rw [if_neg (by omega : ¬ len = 0),
        if_neg (hszeq _ hlen), if_neg hd3, if_pos hd4]
  · have hd5 : cfg.max_dimension + 1 > cfg.max_dimension ∨ h > cfg.max_dimension := by
      omega
    dsimp only [validate_image_data, mkImg]
    rw [if_neg (by omega : ¬ len = 0),
        if_neg (hszeq _ hlen), if_pos hd5]

/-- Witness for C5 at the default configuration, boundary dimensions 32 and
8192, and a one-byte buffer. -/
theorem C5_validation_inclusive_bounds_witness :
    validate_image_data CONFIG
        ⟨CONFIG.max_file_size_mb * 1048576, Except.ok (mkImg 32 8192)⟩ =
      Except.ok () ∧
    validate_image_data CONFIG
        ⟨CONFIG.max_file_size_mb * 1048576 + 1, Except.ok (mkImg 32 8192)⟩ =
      Except.error (ValidationError.tooLarge
        (((CONFIG.max_file_size_mb * 1048576 + 1 : ℕ) : ℚ) / (1024 * 1024))
        CONFIG.max_file_size_mb) ∧
    validate_image_data CONFIG ⟨1, Except.ok (mkImg 32 8192)⟩ = Except.ok () ∧
    validate_image_data CONFIG
        ⟨1, Except.ok (mkImg (CONFIG.min_dimension - 1) 8192)⟩ =
      Except.error (ValidationError.dimsTooSmall (CONFIG.min_dimension - 1) 8192
        CONFIG.min_dimension) ∧
    validate_image_data CONFIG
        ⟨1, Except.ok (mkImg (CONFIG.max_dimension + 1) 8192)⟩ =
      Except.error (ValidationError.dimsTooLarge (CONFIG.max_dimension + 1) 8192
        CONFIG.max_dimension) :=
  C5_validation_inclusive_bounds CONFIG 32 8192 1
    (by norm_num [CONFIG]) (by norm_num [CONFIG]) (by norm_num [CONFIG])
    (by norm_num [CONFIG]) (by norm_num [CONFIG]) (by norm_num [CONFIG])
    (by norm_num [CONFIG]) (by norm_num) (by norm_num [CONFIG])

/-- C6 counterexample: on a validly decoded image with no triggered check the
v0.5 pipeline returns the dynamic base score 0.30 with an empty warning list
— a successful result, but its aggregate score is not zero as the claim
states. -/
theorem C6_quiet_image_nonzero_score_cex :
    analyze_image_v05 quietData = Except.ok ⟨0.3, [], 500, 400⟩ ∧ (0.3 : ℚ) ≠ 0 := by
  constructor
  · simp +decide [analyze_image_v05, load_image, quietData, quietImg,
      base_score_from_image, detect_paper_or_scan, exif_score, smoothness_score,
      oversharp_score, color_score, resolution_score, weird_hand_score,
      pyRound, roundHalfToEven, isRealCameraMake, lowerString,
      containsSub, charListSub, charListStartsWith]
    norm_num
  · norm_num

/-- C6 (amended): on a validly decoded image on which no heuristic check
triggers, both pipelines still return a successful result with an empty flag
list and the formatter does not fail; the v0.6 pipeline's aggregate score is
zero (tier likely_real, no ML verification), but the v0.5 pipeline's score
is its dynamic base 0.30 rather than zero. -/
theorem C6_quiet_image_amended (cfg : HeuristicConfig) (img : Img) (len : ℕ)
    (h1 : check_obvious_ai_artifacts cfg img = (0.0, []))
    (h2 : check_metadata_red_flags img = (0.0, []))
    (h3 : check_format_patterns cfg img = (0.0, []))
    (h4 : check_color_anomalies img = (0.0, []))
    (h5 : ¬ img.whiteRatio > 0.65)
    (h6 : img.width ≠ img.height)
    (h7 : ¬ img.lowPercentile10 < 40)
    (h8 : exif_score img = (0.0, []))
    (h9 : smoothness_score img = Except.ok (0.0, []))
    (h10 : oversharp_score img = Except.ok (0.0, []))
    (h11 : color_score img = Except.ok (0.0, []))
    (h12 : resolution_score img = (0.0, []))
    (h13 : weird_hand_score img = (0.0, [])) :
    prefilter_heuristics cfg img =
      ⟨0, DetectionLevel.likely_real, false, [],
       [⟨"artifacts", 0, []⟩, ⟨"metadata", 0, []⟩,
        ⟨"format", 0, []⟩, ⟨"color", 0, []⟩]⟩ ∧
    analyze_image_v05 ⟨len, Except.ok img⟩ =
      Except.ok ⟨0.3, [], img.width, img.height⟩ := by
  constructor
  · unfold prefilter_heuristics prefilter_checks
    rw [h1, h2, h3, h4]
    norm_num [prefilter_heuristics_outcomes, foldChecks, processCheckOutcome,
      detection_tier, pyRound, roundHalfToEven, Int.fract]
  · unfold analyze_image_v05 load_image
    dsimp only
    rw [h9, h10, h11]
    unfold base_score_from_image detect_paper_or_scan
    simp only [h8, h12, h13, if_neg h5, if_neg h6, if_neg h7]
    norm_num [pyRound, roundHalfToEven, Int.fract]

/-- Witness for C6 at the concrete quiet image. -/
theorem C6_quiet_image_amended_witness :
    prefilter_heuristics CONFIG quietImg =
      ⟨0, DetectionLevel.likely_real, false, [],
       [⟨"artifacts", 0, []⟩, ⟨"metadata", 0, []⟩,
        ⟨"format", 0, []⟩, ⟨"color", 0, []⟩]⟩ ∧
    analyze_image_v05 ⟨2048, Except.ok quietImg⟩ =
      Except.ok ⟨0.3, [], quietImg.width, quietImg.height⟩ :=
  C6_quiet_image_amended CONFIG quietImg 2048
    (by norm_num [check_obvious_ai_artifacts, CONFIG, quietImg])
    (by
      simp +decide [check_metadata_red_flags, quietImg, firstAiMarker, ai_markers,
        lowerString, containsSub, charListSub, charListStartsWith]
      norm_num)
    (by norm_num [check_format_patterns, CONFIG, quietImg])
    (by norm_num [check_color_anomalies, quietImg])
    (by norm_num [quietImg])
    (by norm_num [quietImg])
    (by norm_num [quietImg])
    (by simp +decide [exif_score, quietImg, isRealCameraMake, lowerString,
      containsSub, charListSub, charListStartsWith])
    (by norm_num [smoothness_score, quietImg])
    (by norm_num [oversharp_score, quietImg])
    (by norm_num [color_score, quietImg])
    (by norm_num [resolution_score, quietImg])
    (by norm_num [weird_hand_score, quietImg])

/-- C7 counterexample: the v0.5 resolution check (`resolution_score`, one of
the two cited resolution checks) adds its 0.20 bump for a 512x400 image —
width alone matches — although (512, 400) matches no entry of the configured
resolution list in either orientation, so an image matching in only one
dimension does receive a resolution bump. -/
theorem C7_width_only_resolution_bump_cex :
    resolution_score (mkImg 512 400) =
      (0.20, ["Typische KI-Auflösungsgröße erkannt."]) ∧
    (512, 400) ∉ CONFIG.known_ai_resolutions ∧
    (400, 512) ∉ CONFIG.known_ai_resolutions ∧
    (0.20 : ℚ) ≠ 0 := by
  refine ⟨?_, by decide, by decide, by norm_num⟩
  norm_num [resolution_score, mkImg]

/-- C7 (amended): the v0.6 format check (`check_format_patterns`) adds its
positive bump if and only if the full (width, height) pair exactly matches a
configured known AI resolution or a 90-degree rotation of one; the v0.5
resolution check (`resolution_score`) instead adds its bump if and only if
the width alone is one of 512, 768, 1024, 1536, 2048, regardless of the
height. -/
theorem C7_resolution_checks_amended (cfg : HeuristicConfig) (img : Img) :
    ((check_format_patterns cfg img).1 ≠ 0 ↔
      ((img.width, img.height) ∈ cfg.known_ai_resolutions ∨
       (img.height, img.width) ∈ cfg.known_ai_resolutions)) ∧
    ("Typische KI-Auflösungsgröße erkannt." ∈ (resolution_score img).2 ↔
      img.width ∈ [512, 768, 1024, 1536, 2048]) := by
  constructor
  · unfold check_format_patterns
    split_ifs with hm
    · dsimp only
      constructor
      · intro _; exact hm
      · intro _; norm_num
    · norm_num [hm]
  · unfold resolution_score
    dsimp only
    split_ifs with hA hB hB
    · simp [hA]
    · simp [hA]
    · simp +decide [hA]
    · simp [hA]

/-- C8 counterexample: the v0.6 metadata check (`check_metadata_red_flags`,
one of the two cited EXIF/metadata checks) returns zero score and no flag for
an image carrying no EXIF tags at all, not the small positive score with an
explanatory flag that the claim requires. -/
theorem C8_metadata_check_ignores_missing_exif_cex :
    check_metadata_red_flags noExifImg = (0, []) ∧
    ¬ 0 < (check_metadata_red_flags noExifImg).1 := by
  have h : check_metadata_red_flags noExifImg = (0, []) := by
    simp [check_metadata_red_flags, noExifImg]
    norm_num
  refine ⟨h, ?_⟩
  rw [h]
  norm_num

/-- C8 (amended): the claim holds verbatim for the v0.5 EXIF check
(`exif_score`): +0.10 with a flag when there are no EXIF tags, +0.05 with a
flag when EXIF is unreadable, -0.30 whenever a Make tag contains
canon/sony/nikon/fujifilm, and the positive and negative outcomes are
mutually exclusive for any single image.  The v0.6 metadata check
(`check_metadata_red_flags`) instead ignores absent or unreadable EXIF and
manufacturer Make tags entirely, returning zero score with no flag in all
of those cases. -/
theorem C8_exif_checks_amended (img : Img) :
    (∀ e, img.exif = Except.error e →
      exif_score img = (0.05, ["EXIF nicht lesbar – wirkt KI-typisch."])) ∧
    (img.exif = Except.ok [] →
      exif_score img = (0.10, ["Keine EXIF-Daten gefunden – KI typisch."])) ∧
    (∀ tags, img.exif = Except.ok tags →
      (∃ t ∈ tags, t.1 = "Make" ∧ isRealCameraMake t.2 = true) →
      (exif_score img).1 = -0.30) ∧
    (¬ ((img.exif = Except.ok [] ∨ ∃ e, img.exif = Except.error e) ∧
        (∃ tags t, img.exif = Except.ok tags ∧ t ∈ tags ∧
          t.1 = "Make" ∧ isRealCameraMake t.2 = true))) ∧
    (∀ e, img.exif = Except.error e → check_metadata_red_flags img = (0.0, [])) ∧
    (img.exif = Except.ok [] → check_metadata_red_flags img = (0.0, [])) ∧
    (img.exif = Except.ok [("Make", "Canon")] →
      check_metadata_red_flags img = (0.0, [])) := by
  refine ⟨?_, ?_, ?_, ?_, ?_, ?_, ?_⟩
  · intro e he; simp [exif_score, he]
  · intro he; simp [exif_score, he]
  · intro tags he hex
    have hne : tags ≠ [] := by
      rintro rfl
      rcases hex with ⟨t, ht, -⟩
      simp at ht
    have hsome : (tags.find? (fun t => t.1 == "Make" && isRealCameraMake t.2)).isSome := by
      rw [List.find?_isSome]
      rcases hex with ⟨t, ht, hmk, hcam⟩
      exact ⟨t, ht, by simp [hmk, hcam]⟩
    rcases Option.isSome_iff_exists.mp hsome with ⟨t, hfind⟩
    unfold exif_score
    rw [he]
    simp only [hfind, List.isEmpty_iff, hne, if_neg]
    norm_num
  · rintro ⟨hpos, tags, t, hok, hmem, hmk, hcam⟩
    rcases hpos with hemp | ⟨e, herr⟩
    · rw [hemp] at hok
      simp only [Except.ok.injEq] at hok
      subst hok
      simp at hmem
    · rw [herr] at hok
      cases hok
  · intro e he; simp [check_metadata_red_flags, he]; norm_num
  · intro he; simp [check_metadata_red_flags, he]; norm_num
  · intro he
    simp +decide [check_metadata_red_flags, he, firstAiMarker, ai_markers,
      lowerString, containsSub, charListSub, charListStartsWith]
    norm_num

/-- Witness for C8 at concrete unreadable-EXIF, missing-EXIF and
Canon-tagged images. -/
theorem C8_exif_checks_amended_witness :
    exif_score unreadableExifImg =
      (0.05, ["EXIF nicht lesbar – wirkt KI-typisch."]) ∧
    exif_score noExifImg = (0.10, ["Keine EXIF-Daten gefunden – KI typisch."]) ∧
    (exif_score canonImg).1 = -0.30 ∧
    check_metadata_red_flags unreadableExifImg = (0.0, []) ∧
    check_metadata_red_flags noExifImg = (0.0, []) ∧
    check_metadata_red_flags canonImg = (0.0, []) :=
  ⟨(C8_exif_checks_amended unreadableExifImg).1 "bad EXIF" rfl,
   (C8_exif_checks_amended noExifImg).2.1 rfl,
   (C8_exif_checks_amended canonImg).2.2.1 [("Make", "Canon")] rfl
     ⟨("Make", "Canon"), by decide, rfl, by decide⟩,
   (C8_exif_checks_amended unreadableExifImg).2.2.2.2.1 "bad EXIF" rfl,
   (C8_exif_checks_amended noExifImg).2.2.2.2.2.1 rfl,
   (C8_exif_checks_amended canonImg).2.2.2.2.2.2 rfl⟩

/-- C9 counterexample: the paper/scan relief check returns the score -0.25
for a mostly-near-white image, which does not lie in [0, 1] as the claim
requires of every check.  -/
theorem C9_negative_check_score_cex :
    (detect_paper_or_scan whiteImg).1 = -0.25 ∧
    ¬ 0 ≤ (detect_paper_or_scan whiteImg).1 := by
  have h : (detect_paper_or_scan whiteImg).1 = -0.25 := by
    norm_num [detect_paper_or_scan, whiteImg]
  refine ⟨h, ?_⟩
  rw [h]
  norm_num

/-- C9 (amended): every heuristic check score lies in the closed interval
[-0.30, 1.0]: the four v0.6 checks always return scores in [0, 1], but the
v0.5 checks can go negative (paper/scan relief -0.25, camera-make EXIF
relief -0.30, low-resolution relief -0.15), so the lower bound for the v0.5
checks is -0.30 rather than 0. -/
theorem C9_check_score_bounds_amended (cfg : HeuristicConfig) (img : Img) :
    (-0.30 ≤ (detect_paper_or_scan img).1 ∧ (detect_paper_or_scan img).1 ≤ 1) ∧
    (-0.30 ≤ (exif_score img).1 ∧ (exif_score img).1 ≤ 1) ∧
    (∀ r, oversharp_score img = Except.ok r → -0.30 ≤ r.1 ∧ r.1 ≤ 1) ∧
    (∀ r, smoothness_score img = Except.ok r → -0.30 ≤ r.1 ∧ r.1 ≤ 1) ∧
    (∀ r, color_score img = Except.ok r → -0.30 ≤ r.1 ∧ r.1 ≤ 1) ∧
    (-0.30 ≤ (weird_hand_score img).1 ∧ (weird_hand_score img).1 ≤ 1) ∧
    (-0.30 ≤ (resolution_score img).1 ∧ (resolution_score img).1 ≤ 1) ∧
    (0 ≤ (check_obvious_ai_artifacts cfg img).1 ∧
      (check_obvious_ai_artifacts cfg img).1 ≤ 1) ∧
    (0 ≤ (check_metadata_red_flags img).1 ∧ (check_metadata_red_flags img).1 ≤ 1) ∧
    (0 ≤ (check_format_patterns cfg img).1 ∧ (check_format_patterns cfg img).1 ≤ 1) ∧
    (0 ≤ (check_color_anomalies img).1 ∧ (check_color_anomalies img).1 ≤ 1) := by
  refine ⟨?_, ?_, ?_, ?_, ?_, ?_, ?_, ?_, ?_, ?_, ?_⟩
  · unfold detect_paper_or_scan
    split_ifs <;> norm_num
  · unfold exif_score
    cases he : img.exif with
    | error e => norm_num
    | ok tags =>
      dsimp only
      split_ifs with h
      · norm_num
      · cases hf : tags.find? (fun t => t.1 == "Make" && isRealCameraMake t.2) <;>
          dsimp only <;> norm_num
  · intro r h
    unfold oversharp_score at h
    cases he : img.edgeMean with
    | error e => rw [he] at h; cases h
    | ok v =>
      rw [he] at h
      dsimp only at h
      split_ifs at h <;> (simp only [Except.ok.injEq] at h; subst h; norm_num)
  · intro r h
    unfold smoothness_score at h
    cases he : img.grayVar with
    | error e => rw [he] at h; cases h
    | ok v =>
      rw [he] at h
      dsimp only at h
      split_ifs at h <;> (simp only [Except.ok.injEq] at h; subst h; norm_num)
  · intro r h
    unfold color_score at h
    cases he : img.stddev with
    | error e => rw [he] at h; cases h
    | ok s =>
      rw [he] at h
      dsimp only at h
      split_ifs at h <;> (simp only [Except.ok.injEq] at h; subst h; norm_num)
  · unfold weird_hand_score
    cases he : img.smallEdgeMean128 with
    | error e => norm_num
    | ok v =>
      dsimp only
      split_ifs <;> norm_num
  · unfold resolution_score
    dsimp only
    split_ifs <;> norm_num
  · unfold check_obvious_ai_artifacts
    cases h1 : img.edgeMean <;> cases h2 : img.grayVar <;>
      cases h3 : img.smallEdgeStats256 <;> dsimp only <;>
      first
        | (split_ifs <;> norm_num)
        | norm_num
  · unfold check_metadata_red_flags
    cases he : img.exif with
    | error e => norm_num
    | ok tags =>
      dsimp only
      split_ifs with h
      · norm_num
      · dsimp only
        refine ⟨?_, ?_⟩
        · rw [le_min_iff]
          exact ⟨by positivity, by norm_num⟩
        · rw [min_le_iff]
          right
          norm_num
  · unfold check_format_patterns
    split_ifs <;> norm_num
  · unfold check_color_anomalies
    cases he : img.stddev with
    | error e => norm_num
    | ok s =>
      dsimp only
      split_ifs <;> norm_num

/-- Witness for C9 at the concrete quiet image, discharging the
success-outcome hypotheses of the three fallible v0.5 checks. -/
theorem C9_check_score_bounds_amended_witness :
    (-0.30 ≤ ((0.0 : ℚ), ([] : List String)).1 ∧
      ((0.0 : ℚ), ([] : List String)).1 ≤ 1) ∧
    (-0.30 ≤ ((0.0 : ℚ), ([] : List String)).1 ∧
      ((0.0 : ℚ), ([] : List String)).1 ≤ 1) ∧
    (-0.30 ≤ ((0.0 : ℚ), ([] : List String)).1 ∧
      ((0.0 : ℚ), ([] : List String)).1 ≤ 1) :=
  ⟨(C9_check_score_bounds_amended CONFIG quietImg).2.2.1 (0.0, [])
    (by norm_num [oversharp_score, quietImg]),
   (C9_check_score_bounds_amended CONFIG quietImg).2.2.2.1 (0.0, [])
    (by norm_num [smoothness_score, quietImg]),
   (C9_check_score_bounds_amended CONFIG quietImg).2.2.2.2.1 (0.0, [])
    (by norm_num [color_score, quietImg])⟩
